import Mathlib

/-!
Verification of the webpic-normalizer image pipeline (`src/main.py`).

The development shallowly embeds the parts of `ImageProcessor` that the
specification talks about:

* the geometry/layout computation of `ImageProcessor.process`
  (lines 26-52), modelled over `ℚ` (the Python code computes in floats
  and only truncates to integers at the point of use);
* the EXIF orientation fixup `ImageProcessor._fix_jpeg_rotation`
  (lines 92-106), with the pixel-level `Image.transpose` primitive of the
  external codec library modelled as an operation trace on the image;
* the persistence logic of `ImageProcessor.save` (lines 67-90), with the
  filesystem modelled as an association list from path to byte size.

Python runtime failures (`ZeroDivisionError`, `KeyError`, `RuntimeError`)
are modelled by `Except` error results at exactly the program points where
the interpreter would raise them.
-/

namespace WebpicNormalizer

/-- An axis-aligned rectangle in canvas coordinates, before the
`int(...)` truncation that `process` applies at the point of use. -/
@[ext]
structure Rect where
  x : ℚ
  y : ℚ
  w : ℚ
  h : ℚ
  deriving DecidableEq, Repr

/-- The geometry computed by `ImageProcessor.process`: the foreground
rectangle (`xpos`, `ypos`, `in_width`, `in_height`) and the background
rectangle (`bgxpos`, `bgypos`, `bg_width`, `bg_height`). -/
@[ext]
structure LayoutResult where
  fg : Rect
  bg : Rect
  deriving DecidableEq, Repr

/-- The geometry portion of `ImageProcessor.process` (src/main.py lines
26-52), translated clause by clause.  The sequential Python reassignment
`bg_width *= self.bg_upscale` is folded into the initialisation of the
corresponding local. -/
def layout (sourceW sourceH canvasW canvasH upscale : ℚ) : LayoutResult :=
  let aspect_ratio_in := sourceW / sourceH
  let aspect_ratio_out := canvasW / canvasH
  if aspect_ratio_in < aspect_ratio_out then
    -- output is wider, we must match heights
    let in_height := canvasH
    let in_width := in_height * aspect_ratio_in
    let bg_width := canvasW * upscale
    let bg_height := canvasW / aspect_ratio_in * upscale
    let bgxpos := canvasW / 2 - bg_width / 2
    let bgypos := in_height / 2 - bg_height / 2
    let xpos := canvasW / 2 - in_width / 2
    let ypos := 0
    { fg := ⟨xpos, ypos, in_width, in_height⟩
    , bg := ⟨bgxpos, bgypos, bg_width, bg_height⟩ }
  else
    -- output is narrower, we must match widths
    let in_width := canvasW
    let in_height := in_width / aspect_ratio_in
    let bg_height := canvasH * upscale
    let bg_width := canvasH * aspect_ratio_in * upscale
    let bgxpos := in_width / 2 - bg_width / 2
    let bgypos := canvasH / 2 - bg_height / 2
    let xpos := 0
    let ypos := canvasH / 2 - in_height / 2
    { fg := ⟨xpos, ypos, in_width, in_height⟩
    , bg := ⟨bgxpos, bgypos, bg_width, bg_height⟩ }

/-- Unfolding of `layout` on the "match heights" branch. -/
lemma layout_matchHeights (sourceW sourceH canvasW canvasH upscale : ℚ)
    (hbr : sourceW / sourceH < canvasW / canvasH) :
    layout sourceW sourceH canvasW canvasH upscale =
      { fg := ⟨canvasW / 2 - canvasH * (sourceW / sourceH) / 2, 0,
               canvasH * (sourceW / sourceH), canvasH⟩
      , bg := ⟨canvasW / 2 - canvasW * upscale / 2,
               canvasH / 2 - canvasW / (sourceW / sourceH) * upscale / 2,
               canvasW * upscale,
               canvasW / (sourceW / sourceH) * upscale⟩ } := by
  simp only [layout, if_pos hbr]

/-- Unfolding of `layout` on the "match widths" branch. -/
lemma layout_matchWidths (sourceW sourceH canvasW canvasH upscale : ℚ)
    (hbr : ¬ sourceW / sourceH < canvasW / canvasH) :
    layout sourceW sourceH canvasW canvasH upscale =
      { fg := ⟨0, canvasH / 2 - canvasW / (sourceW / sourceH) / 2,
               canvasW, canvasW / (sourceW / sourceH)⟩
      , bg := ⟨canvasW / 2 - canvasH * (sourceW / sourceH) * upscale / 2,
               canvasH / 2 - canvasH * upscale / 2,
               canvasH * (sourceW / sourceH) * upscale,
               canvasH * upscale⟩ } := by
  simp only [layout, if_neg hbr]

/-- C1: for positive source and canvas dimensions and upscale ≥ 1, the
foreground rectangle computed by `process` satisfies `0 ≤ x`, `0 ≤ y`,
`x + width ≤ canvasW` and `y + height ≤ canvasH`: it is fully contained
in the canvas. -/
theorem foreground_contained (sourceW sourceH canvasW canvasH upscale : ℚ)
    (hsw : 0 < sourceW) (hsh : 0 < sourceH)
    (_hcw : 0 < canvasW) (hch : 0 < canvasH) (_hup : 1 ≤ upscale) :
    0 ≤ (layout sourceW sourceH canvasW canvasH upscale).fg.x ∧
    0 ≤ (layout sourceW sourceH canvasW canvasH upscale).fg.y ∧
    (layout sourceW sourceH canvasW canvasH upscale).fg.x +
      (layout sourceW sourceH canvasW canvasH upscale).fg.w ≤ canvasW ∧
    (layout sourceW sourceH canvasW canvasH upscale).fg.y +
      (layout sourceW sourceH canvasW canvasH upscale).fg.h ≤ canvasH := by
  by_cases hbr : sourceW / sourceH < canvasW / canvasH
  · rw [layout_matchHeights sourceW sourceH canvasW canvasH upscale hbr]
    have hcross : sourceW * canvasH < canvasW * sourceH :=
      (div_lt_div_iff₀ hsh hch).mp hbr
    have key : canvasH * (sourceW / sourceH) ≤ canvasW := by
      rw [mul_comm, div_mul_eq_mul_div, div_le_iff₀ hsh]
      nlinarith
    refine ⟨by simp only; linarith, by simp only; linarith,
      by simp only; linarith, by simp only; linarith⟩
  · rw [layout_matchWidths sourceW sourceH canvasW canvasH upscale hbr]
    have hAR : 0 < sourceW / sourceH := div_pos hsw hsh
    have hcross : canvasW * sourceH ≤ sourceW * canvasH :=
      (div_le_div_iff₀ hch hsh).mp (not_lt.mp hbr)
    have key : canvasW / (sourceW / sourceH) ≤ canvasH := by
      rw [div_le_iff₀ hAR, mul_comm, div_mul_eq_mul_div, le_div_iff₀ hsh]
      nlinarith
    refine ⟨by simp only; linarith, by simp only; linarith,
      by simp only; linarith, by simp only; linarith⟩

/-- Concrete instance of `foreground_contained` at a 4000×3000 source,
the 1160×655 canvas hard-coded in `main`, and the default upscale 1.1. -/
theorem foreground_contained_witness :
    0 ≤ (layout 4000 3000 1160 655 (11 / 10)).fg.x ∧
    0 ≤ (layout 4000 3000 1160 655 (11 / 10)).fg.y ∧
    (layout 4000 3000 1160 655 (11 / 10)).fg.x +
      (layout 4000 3000 1160 655 (11 / 10)).fg.w ≤ 1160 ∧
    (layout 4000 3000 1160 655 (11 / 10)).fg.y +
      (layout 4000 3000 1160 655 (11 / 10)).fg.h ≤ 655 :=
  foreground_contained 4000 3000 1160 655 (11 / 10)
    (by norm_num) (by norm_num) (by norm_num) (by norm_num) (by norm_num)

/-- C2: on inputs with `sourceW/sourceH < canvasW/canvasH` the layout
takes the match-heights branch and produces exactly the rectangles the
spec lists: `fgH = canvasH`, `fgW = canvasH·(sourceW/sourceH)`,
`fg.x = (canvasW − fgW)/2`, `fg.y = 0`; `bgW = canvasW·upscale`,
`bgH = (canvasW/(sourceW/sourceH))·upscale`, `bg.x = (canvasW − bgW)/2`,
`bg.y = canvasH/2 − bgH/2`. -/
theorem layout_wide_formulas (sourceW sourceH canvasW canvasH upscale : ℚ)
    (_hsw : 0 < sourceW) (_hsh : 0 < sourceH)
    (_hcw : 0 < canvasW) (_hch : 0 < canvasH) (_hup : 1 ≤ upscale)
    (hbr : sourceW / sourceH < canvasW / canvasH) :
    layout sourceW sourceH canvasW canvasH upscale =
      { fg := ⟨(canvasW - canvasH * (sourceW / sourceH)) / 2, 0,
               canvasH * (sourceW / sourceH), canvasH⟩
      , bg := ⟨(canvasW - canvasW * upscale) / 2,
               canvasH / 2 - canvasW / (sourceW / sourceH) * upscale / 2,
               canvasW * upscale,
               canvasW / (sourceW / sourceH) * upscale⟩ } := by
  rw [layout_matchHeights sourceW sourceH canvasW canvasH upscale hbr]
  refine LayoutResult.ext ?_ ?_ <;> refine Rect.ext ?_ ?_ ?_ ?_ <;> ring

/-- Concrete instance of `layout_wide_formulas` at the 4000×3000 source
scenario from the spec (canvas 1160×655, upscale 1.1). -/
theorem layout_wide_formulas_witness :
    layout 4000 3000 1160 655 (11 / 10) =
      { fg := ⟨(1160 - 655 * (4000 / 3000)) / 2, 0,
               655 * (4000 / 3000), 655⟩
      , bg := ⟨(1160 - 1160 * (11 / 10)) / 2,
               655 / 2 - 1160 / (4000 / 3000) * (11 / 10) / 2,
               1160 * (11 / 10),
               1160 / (4000 / 3000) * (11 / 10)⟩ } :=
  layout_wide_formulas 4000 3000 1160 655 (11 / 10)
    (by norm_num) (by norm_num) (by norm_num) (by norm_num) (by norm_num)
    (by norm_num)

/-- C5: for positive dimensions and upscale > 1, the background
rectangle covers the whole canvas: `bg.w ≥ canvasW`, `bg.h ≥ canvasH`,
`bg.x ≤ 0`, `bg.y ≤ 0`, and its far edges reach past `canvasW` and
`canvasH`. -/
theorem background_covers (sourceW sourceH canvasW canvasH upscale : ℚ)
    (hsw : 0 < sourceW) (hsh : 0 < sourceH)
    (hcw : 0 < canvasW) (hch : 0 < canvasH) (hup : 1 < upscale) :
    canvasW ≤ (layout sourceW sourceH canvasW canvasH upscale).bg.w ∧
    canvasH ≤ (layout sourceW sourceH canvasW canvasH upscale).bg.h ∧
    (layout sourceW sourceH canvasW canvasH upscale).bg.x ≤ 0 ∧
    (layout sourceW sourceH canvasW canvasH upscale).bg.y ≤ 0 ∧
    canvasW ≤ (layout sourceW sourceH canvasW canvasH upscale).bg.x +
      (layout sourceW sourceH canvasW canvasH upscale).bg.w ∧
    canvasH ≤ (layout sourceW sourceH canvasW canvasH upscale).bg.y +
      (layout sourceW sourceH canvasW canvasH upscale).bg.h := by
  have hAR : 0 < sourceW / sourceH := div_pos hsw hsh
  by_cases hbr : sourceW / sourceH < canvasW / canvasH
  · rw [layout_matchHeights sourceW sourceH canvasW canvasH upscale hbr]
    have key1 : canvasW ≤ canvasW * upscale := by nlinarith
    have h3 : sourceW / sourceH * canvasH < canvasW := (lt_div_iff₀ hch).mp hbr
    have h4 : canvasH < canvasW / (sourceW / sourceH) := by
      rw [lt_div_iff₀ hAR]; nlinarith
    have key2 : canvasH ≤ canvasW / (sourceW / sourceH) * upscale := by
      nlinarith [div_pos hcw hAR]
    refine ⟨by simp only; linarith, by simp only; linarith,
      by simp only; linarith, by simp only; linarith,
      by simp only; linarith, by simp only; linarith⟩
  · rw [layout_matchWidths sourceW sourceH canvasW canvasH upscale hbr]
    have h3 : canvasW ≤ canvasH * (sourceW / sourceH) := by
      have := (div_le_div_iff₀ hch hsh).mp (not_lt.mp hbr)
      rw [mul_comm, div_mul_eq_mul_div, le_div_iff₀ hsh]; nlinarith
    have key1 : canvasW ≤ canvasH * (sourceW / sourceH) * upscale := by
      nlinarith [mul_pos hch hAR]
    have key2 : canvasH ≤ canvasH * upscale := by nlinarith
    refine ⟨by simp only; linarith, by simp only; linarith,
      by simp only; linarith, by simp only; linarith,
      by simp only; linarith, by simp only; linarith⟩

/-- Concrete instance of `background_covers` at the 2000×3000 source
scenario from the spec (canvas 1160×655, upscale 1.1). -/
theorem background_covers_witness :
    1160 ≤ (layout 2000 3000 1160 655 (11 / 10)).bg.w ∧
    655 ≤ (layout 2000 3000 1160 655 (11 / 10)).bg.h ∧
    (layout 2000 3000 1160 655 (11 / 10)).bg.x ≤ 0 ∧
    (layout 2000 3000 1160 655 (11 / 10)).bg.y ≤ 0 ∧
    1160 ≤ (layout 2000 3000 1160 655 (11 / 10)).bg.x +
      (layout 2000 3000 1160 655 (11 / 10)).bg.w ∧
    655 ≤ (layout 2000 3000 1160 655 (11 / 10)).bg.y +
      (layout 2000 3000 1160 655 (11 / 10)).bg.h :=
  background_covers 2000 3000 1160 655 (11 / 10)
    (by norm_num) (by norm_num) (by norm_num) (by norm_num) (by norm_num)

/-- Swap the two axes of a rectangle: x/y exchanged, width/height
exchanged. -/
def Rect.transpose (r : Rect) : Rect := ⟨r.y, r.x, r.h, r.w⟩

/-- Swap the two axes of both rectangles of a layout. -/
def LayoutResult.transpose (l : LayoutResult) : LayoutResult :=
  ⟨l.fg.transpose, l.bg.transpose⟩

/-- C6: for positive dimensions, `layout (h, w)` onto canvas `(ch, cw)`
is the axis transpose of `layout (w, h)` onto canvas `(cw, ch)`: every
width/height pair and every x/y pair of both rectangles is swapped. -/
theorem layout_transpose (sourceW sourceH canvasW canvasH upscale : ℚ)
    (hsw : 0 < sourceW) (hsh : 0 < sourceH)
    (hcw : 0 < canvasW) (hch : 0 < canvasH) :
    layout sourceH sourceW canvasH canvasW upscale =
      (layout sourceW sourceH canvasW canvasH upscale).transpose := by
  have hsw' : sourceW ≠ 0 := ne_of_gt hsw
  have hsh' : sourceH ≠ 0 := ne_of_gt hsh
  have hcw' : canvasW ≠ 0 := ne_of_gt hcw
  have hch' : canvasH ≠ 0 := ne_of_gt hch
  rcases lt_trichotomy (sourceW / sourceH) (canvasW / canvasH) with hlt | heq | hgt
  · have hcross : sourceW * canvasH < canvasW * sourceH :=
      (div_lt_div_iff₀ hsh hch).mp hlt
    have hbr2 : ¬ sourceH / sourceW < canvasH / canvasW := by
      rw [not_lt, div_le_div_iff₀ hcw hsw]; nlinarith
    rw [layout_matchHeights sourceW sourceH canvasW canvasH upscale hlt,
      layout_matchWidths sourceH sourceW canvasH canvasW upscale hbr2]
    simp only [LayoutResult.transpose, Rect.transpose]
    refine LayoutResult.ext ?_ ?_ <;> refine Rect.ext ?_ ?_ ?_ ?_ <;>
      simp only <;> field_simp
  · have hcross : sourceW * canvasH = canvasW * sourceH :=
      (div_eq_div_iff hsh' hch').mp heq
    have hbr1 : ¬ sourceW / sourceH < canvasW / canvasH := by
      rw [heq]; exact lt_irrefl _
    have hbr2 : ¬ sourceH / sourceW < canvasH / canvasW := by
      rw [not_lt, div_le_div_iff₀ hcw hsw]; nlinarith
    rw [layout_matchWidths sourceW sourceH canvasW canvasH upscale hbr1,
      layout_matchWidths sourceH sourceW canvasH canvasW upscale hbr2]
    simp only [LayoutResult.transpose, Rect.transpose]
    have hcrossU : sourceW * canvasH * upscale = canvasW * sourceH * upscale := by
      rw [hcross]
    refine LayoutResult.ext ?_ ?_ <;> refine Rect.ext ?_ ?_ ?_ ?_ <;>
      simp only <;> field_simp <;> linarith [hcross, hcrossU]
  · have hcross : canvasW * sourceH < sourceW * canvasH :=
      (div_lt_div_iff₀ hch hsh).mp hgt
    have hbr1 : ¬ sourceW / sourceH < canvasW / canvasH := by
      rw [not_lt, div_le_div_iff₀ hch hsh]; nlinarith
    have hbr2 : sourceH / sourceW < canvasH / canvasW := by
      rw [div_lt_div_iff₀ hsw hcw]; nlinarith
    rw [layout_matchWidths sourceW sourceH canvasW canvasH upscale hbr1,
      layout_matchHeights sourceH sourceW canvasH canvasW upscale hbr2]
    simp only [LayoutResult.transpose, Rect.transpose]
    refine LayoutResult.ext ?_ ?_ <;> refine Rect.ext ?_ ?_ ?_ ?_ <;>
      simp only <;> field_simp

/-- Concrete instance of `layout_transpose`: a 4000×3000 source on the
1160×655 canvas against a 3000×4000 source on a 655×1160 canvas. -/
theorem layout_transpose_witness :
    layout 3000 4000 655 1160 (11 / 10) =
      (layout 4000 3000 1160 655 (11 / 10)).transpose :=
  layout_transpose 4000 3000 1160 655 (11 / 10)
    (by norm_num) (by norm_num) (by norm_num) (by norm_num)

/-- The PIL transpose constants used by `_fix_jpeg_rotation`. -/
inductive TransposeOp where
  | ROTATE_90
  | ROTATE_180
  | ROTATE_270
  deriving DecidableEq, Repr

/-- A Python `KeyError` raised by a dict subscript (`exif[0x0112]` or
`rotations[orientation]`). -/
inductive ExifError where
  | keyError (key : ℕ)
  deriving DecidableEq, Repr

/-- A decoded image as `_fix_jpeg_rotation` sees it: whether the object
has a `_getexif` attribute; the EXIF dictionary `_getexif()` returns
(`none` models a `None` return, `some []` an empty dict — both falsy);
and the pixel buffer, modelled by the trace of `Image.transpose` calls
applied to it (the transpose primitive itself belongs to the external
codec library). -/
structure DecodedImage where
  hasGetexif : Bool
  exif : Option (List (ℕ × ℕ))
  applied : List TransposeOp
  deriving DecidableEq, Repr

/-- The external `Image.transpose` primitive: returns a new buffer with
the given operation applied (recorded on the trace). -/
def DecodedImage.transpose (img : DecodedImage) (op : TransposeOp) : DecodedImage :=
  { img with applied := img.applied ++ [op] }

/-- The `rotations` dict of `_fix_jpeg_rotation` (src/main.py lines
99-103): orientation tag ↦ (PIL transpose constant, degrees printed). -/
def rotations : List (ℕ × TransposeOp × ℕ) :=
  [(3, (TransposeOp.ROTATE_180, 180)),
   (6, (TransposeOp.ROTATE_270, 270)),
   (8, (TransposeOp.ROTATE_90, 90))]

/-- `ImageProcessor._fix_jpeg_rotation` (src/main.py lines 92-106).
Both dict subscripts are modelled by association-list lookups that fail
with `KeyError` exactly where Python would raise: `exif[0x0112]` when
the non-empty EXIF dict lacks key 0x0112, and `rotations[orientation]`
(evaluated first inside the `print` call on line 104) when the tag is
not one of 3, 6, 8. -/
def fixJpegRotation (img : DecodedImage) : Except ExifError DecodedImage :=
  if img.hasGetexif then
    match img.exif with
    | none => .ok img
    | some exifDict =>
      if exifDict.isEmpty then .ok img
      else
        match exifDict.lookup 0x0112 with
        | none => .error (.keyError 0x0112)
        | some tag =>
          match rotations.lookup tag with
          | none => .error (.keyError tag)
          | some (op, _deg) => .ok (img.transpose op)
  else .ok img

/-- C3 (failing input): the spec's orientation mapping holds for tags
3, 6, 8 and for images with no EXIF data, but an image whose orientation
tag is 1 — which the spec says is a no-op — makes `_fix_jpeg_rotation`
raise `KeyError: 1` at `rotations[orientation]`, and a non-empty EXIF
dict without an orientation entry raises `KeyError: 0x0112`. -/
theorem fixJpegRotation_tag1_keyError :
    fixJpegRotation ⟨true, some [(0x0112, 3)], []⟩ =
      .ok ⟨true, some [(0x0112, 3)], [TransposeOp.ROTATE_180]⟩ ∧
    fixJpegRotation ⟨true, some [(0x0112, 6)], []⟩ =
      .ok ⟨true, some [(0x0112, 6)], [TransposeOp.ROTATE_270]⟩ ∧
    fixJpegRotation ⟨true, some [(0x0112, 8)], []⟩ =
      .ok ⟨true, some [(0x0112, 8)], [TransposeOp.ROTATE_90]⟩ ∧
    fixJpegRotation ⟨true, none, []⟩ = .ok ⟨true, none, []⟩ ∧
    fixJpegRotation ⟨false, none, []⟩ = .ok ⟨false, none, []⟩ ∧
    fixJpegRotation ⟨true, some [(0x0112, 1)], []⟩ =
      .error (.keyError 1) ∧
    fixJpegRotation ⟨true, some [(0x0110, 7)], []⟩ =
      .error (.keyError 0x0112) :=
  ⟨rfl, rfl, rfl, rfl, rfl, rfl, rfl⟩

/-- C8: an orientation tag outside the recognized set {1, 3, 6, 8}
makes `_fix_jpeg_rotation` fail with a `KeyError` carrying that tag
(the `rotations` dict has no such key), rather than silently skipping
the rotation. -/
theorem fixJpegRotation_unknown_tag_fails (tag : ℕ)
    (_h1 : tag ≠ 1) (h3 : tag ≠ 3) (h6 : tag ≠ 6) (h8 : tag ≠ 8) :
    fixJpegRotation ⟨true, some [(0x0112, tag)], []⟩ =
      .error (.keyError tag) := by
  have e3 : (tag == 3) = false := beq_eq_false_iff_ne.mpr h3
  have e6 : (tag == 6) = false := beq_eq_false_iff_ne.mpr h6
  have e8 : (tag == 8) = false := beq_eq_false_iff_ne.mpr h8
  simp [fixJpegRotation, rotations, List.lookup, e3, e6, e8]

/-- Concrete instance of `fixJpegRotation_unknown_tag_fails` at
orientation tag 7 (flipped + rotated, unsupported by the code). -/
theorem fixJpegRotation_unknown_tag_fails_witness :
    fixJpegRotation ⟨true, some [(0x0112, 7)], []⟩ =
      .error (.keyError 7) :=
  fixJpegRotation_unknown_tag_fails 7
    (by decide) (by decide) (by decide) (by decide)

/-- The quality/optimize selection of `ImageProcessor.save`
(src/main.py lines 74-85), with the code's three redundant
below-threshold branches kept as written. -/
def qualityFor (input_size_bytes : ℕ) : ℕ × Bool :=
  if input_size_bytes < 512 * 1024 then (90, false)
  else if input_size_bytes < 1024 * 1024 then (90, false)
  else if input_size_bytes < 2 * 1024 * 1024 then (90, false)
  else (85, true)

/-- C4: the quality selection is a step function of the input byte
size: below 2 MiB it yields quality 90 with optimize off, at or above
2 MiB quality 85 with optimize on; hence quality is antitone across the
threshold and optimize flips from false to true. -/
theorem quality_step_function (s1 s2 : ℕ)
    (h1 : s1 < 2 * 1024 * 1024) (h2 : 2 * 1024 * 1024 ≤ s2) :
    qualityFor s1 = (90, false) ∧ qualityFor s2 = (85, true) ∧
    (qualityFor s2).1 ≤ (qualityFor s1).1 ∧
    (qualityFor s1).2 = false ∧ (qualityFor s2).2 = true := by
  have e1 : qualityFor s1 = (90, false) := by
    unfold qualityFor
    rcases lt_or_ge s1 (512 * 1024) with h | h
    · rw [if_pos h]
    · rw [if_neg (not_lt.mpr h)]
      rcases lt_or_ge s1 (1024 * 1024) with hm | hm
      · rw [if_pos hm]
      · rw [if_neg (not_lt.mpr hm), if_pos h1]
  have e2 : qualityFor s2 = (85, true) := by
    unfold qualityFor
    rw [if_neg (by omega), if_neg (by omega), if_neg (by omega)]
  rw [e1, e2]
  exact ⟨rfl, rfl, by norm_num, rfl, rfl⟩

/-- Concrete instance of `quality_step_function` at a 1 KiB file and a
3 MiB file. -/
theorem quality_step_function_witness :
    qualityFor 1024 = (90, false) ∧
    qualityFor (3 * 1024 * 1024) = (85, true) ∧
    (qualityFor (3 * 1024 * 1024)).1 ≤ (qualityFor 1024).1 ∧
    (qualityFor 1024).2 = false ∧
    (qualityFor (3 * 1024 * 1024)).2 = true :=
  quality_step_function 1024 (3 * 1024 * 1024) (by norm_num) (by norm_num)

/-- Errors of the layout portion of `process`.  `zeroDivision` is the
Python `ZeroDivisionError` the interpreter raises at a division whose
divisor is zero.  `degenerateGeometry` is the `DegenerateGeometryError`
the spec describes; no code path produces it. -/
inductive LayoutError where
  | zeroDivision
  | degenerateGeometry
  deriving DecidableEq, Repr

/-- The geometry portion of `ImageProcessor.process` again, now with
each division guarded exactly where the Python interpreter would raise
`ZeroDivisionError`: `sourceW/sourceH` (line 26), `canvasW/canvasH`
(line 27), and the division by `aspect_ratio_in` inside either branch
(line 34 resp. line 44). -/
def layoutChecked (sourceW sourceH canvasW canvasH upscale : ℚ) :
    Except LayoutError LayoutResult :=
  if sourceH = 0 then .error .zeroDivision else
  let aspect_ratio_in := sourceW / sourceH
  if canvasH = 0 then .error .zeroDivision else
  let aspect_ratio_out := canvasW / canvasH
  if aspect_ratio_in < aspect_ratio_out then
    if aspect_ratio_in = 0 then .error .zeroDivision else
    .ok { fg := ⟨canvasW / 2 - canvasH * aspect_ratio_in / 2, 0,
                 canvasH * aspect_ratio_in, canvasH⟩
        , bg := ⟨canvasW / 2 - canvasW * upscale / 2,
                 canvasH / 2 - canvasW / aspect_ratio_in * upscale / 2,
                 canvasW * upscale,
                 canvasW / aspect_ratio_in * upscale⟩ }
  else
    if aspect_ratio_in = 0 then .error .zeroDivision else
    .ok { fg := ⟨0, canvasH / 2 - canvasW / aspect_ratio_in / 2,
                 canvasW, canvasW / aspect_ratio_in⟩
        , bg := ⟨canvasW / 2 - canvasH * aspect_ratio_in * upscale / 2,
                 canvasH / 2 - canvasH * upscale / 2,
                 canvasH * aspect_ratio_in * upscale,
                 canvasH * upscale⟩ }

/-- C7 (counterexample): a zero-area canvas (width 0) with a 1×1 source
does not fail at all — the match-widths branch runs and returns a
layout — so no `DegenerateGeometryError` is raised before (or instead
of) the divisions. -/
theorem layoutChecked_zero_canvasW_ok :
    layoutChecked 1 1 0 1 (11 / 10) =
      .ok { fg := ⟨0, 1 / 2, 0, 0⟩
          , bg := ⟨-(11 / 20), -(1 / 20), 11 / 10, 11 / 10⟩ } := by
  norm_num [layoutChecked]

/-- C7 (amended): the code contains no degenerate-geometry guard.  A
zero source height or zero canvas height reaches the aspect-ratio
division with a zero divisor and fails there with `ZeroDivisionError`;
a zero source width (with nonzero heights) fails with
`ZeroDivisionError` at the division by the zero aspect ratio inside the
taken branch; and no input ever produces a `DegenerateGeometryError`. -/
theorem layout_no_degenerate_guard (sourceW sourceH canvasW canvasH upscale : ℚ)
    (hsh : sourceH ≠ 0) (hch : canvasH ≠ 0) :
    layoutChecked sourceW 0 canvasW canvasH upscale = .error .zeroDivision ∧
    layoutChecked sourceW sourceH canvasW 0 upscale = .error .zeroDivision ∧
    layoutChecked 0 sourceH canvasW canvasH upscale = .error .zeroDivision ∧
    (∀ a b c d e : ℚ,
      layoutChecked a b c d e ≠ .error .degenerateGeometry) := by
  refine ⟨?_, ?_, ?_, ?_⟩
  · simp [layoutChecked]
  · simp [layoutChecked, hsh]
  · simp only [layoutChecked, if_neg hsh, if_neg hch, zero_div]
    split <;> simp
  · intro a b c d e
    simp only [layoutChecked]
    split
    · simp
    · split
      · simp
      · split <;> split <;> simp

/-- Concrete instance of `layout_no_degenerate_guard` at source height
3000 and the 1160×655 canvas. -/
theorem layout_no_degenerate_guard_witness :
    layoutChecked 4000 0 1160 655 (11 / 10) = .error .zeroDivision ∧
    layoutChecked 4000 3000 1160 0 (11 / 10) = .error .zeroDivision ∧
    layoutChecked 0 3000 1160 655 (11 / 10) = .error .zeroDivision ∧
    (∀ a b c d e : ℚ,
      layoutChecked a b c d e ≠ .error .degenerateGeometry) :=
  layout_no_degenerate_guard 4000 3000 1160 655 (11 / 10)
    (by norm_num) (by norm_num)

/-- A filesystem, as `save` observes it through `os.path.isfile` and
`os.stat`: an association list from path to byte size. -/
abbrev FileSystem := List (String × ℕ)

/-- `os.path.isfile(path)`. -/
def isfile (fs : FileSystem) (path : String) : Bool :=
  (fs.lookup path).isSome

/-- `os.stat(path).st_size`; `none` models the `FileNotFoundError` of a
missing path. -/
def statSize (fs : FileSystem) (path : String) : Option ℕ :=
  fs.lookup path

/-- The composited canvas `process` stores in `self.output_image`; its
pixel content comes from the external codec primitives, so only the
canvas dimensions are tracked. -/
structure CompositedImage where
  width : ℕ
  height : ℕ
  deriving DecidableEq, Repr

/-- The part of `ImageProcessor`'s state that `save` reads: the input
path given to the constructor and the mutable `output_image` slot,
which is `None` until `process` has run. -/
structure ImageProcessorState where
  img_path : String
  output_image : Option CompositedImage
  deriving DecidableEq, Repr

/-- Failures of `ImageProcessor.save`: the two explicit `RuntimeError`
raises (lines 68-71) and the `FileNotFoundError` that `os.stat` (line
72) raises on a missing input path. -/
inductive SaveError where
  | notProcessed
  | fileExists (name : String)
  | fileNotFound (name : String)
  deriving DecidableEq, Repr

/-- The record of a completed `self.output_image.save(...)` call:
destination name and the encoder parameters chosen.  The encoded bytes
themselves come from the external codec library. -/
structure SavedFile where
  name : String
  quality : ℕ
  optimize : Bool
  deriving DecidableEq, Repr

/-- `ImageProcessor.save` (src/main.py lines 67-90): guard on
`output_image`, then the destination-existence check, then the
`os.stat` of the input, then the quality selection and the write.  An
error result means the function raised before writing anything. -/
def save (st : ImageProcessorState) (fs : FileSystem) (out_name : String) :
    Except SaveError SavedFile :=
  match st.output_image with
  | none => .error .notProcessed
  | some _img =>
    if isfile fs out_name then .error (.fileExists out_name)
    else
      match statSize fs st.img_path with
      | none => .error (.fileNotFound st.img_path)
      | some input_size_bytes =>
        .ok ⟨out_name, (qualityFor input_size_bytes).1,
             (qualityFor input_size_bytes).2⟩

/-- C9: when a file already exists at the destination path, `save`
raises (with the already-exists `RuntimeError` whenever the processed
image is present) and never produces a written output; conversely a
successful `save` implies the destination did not exist. -/
theorem save_no_overwrite (st : ImageProcessorState) (fs : FileSystem)
    (out_name : String) (hex : isfile fs out_name = true) :
    (st.output_image.isSome →
      save st fs out_name = .error (.fileExists out_name)) ∧
    (∀ f : SavedFile, save st fs out_name ≠ .ok f) := by
  cases himg : st.output_image with
  | none => exact ⟨by simp [himg], by simp [save, himg]⟩
  | some img =>
    refine ⟨fun _ => ?_, fun f => ?_⟩ <;> simp [save, himg, hex]

/-- Concrete instance of `save_no_overwrite`: the destination
`out.jpg` already exists and `save` fails with the conflict error. -/
theorem save_no_overwrite_witness :
    ((⟨"in.jpg", some ⟨1160, 655⟩⟩ :
        ImageProcessorState).output_image.isSome →
      save ⟨"in.jpg", some ⟨1160, 655⟩⟩ [("out.jpg", 100), ("in.jpg", 5000)]
          "out.jpg" =
        .error (.fileExists "out.jpg")) ∧
    (∀ f : SavedFile,
      save ⟨"in.jpg", some ⟨1160, 655⟩⟩ [("out.jpg", 100), ("in.jpg", 5000)]
          "out.jpg" ≠ .ok f) :=
  save_no_overwrite ⟨"in.jpg", some ⟨1160, 655⟩⟩
    [("out.jpg", 100), ("in.jpg", 5000)] "out.jpg" (by decide)

/-- C10: with `output_image` still `None`, `save` raises the
must-call-process `RuntimeError` first, whatever the filesystem and
destination — in particular before the destination-existence check and
the `os.stat` of the input — so nothing is written. -/
theorem save_requires_process (st : ImageProcessorState) (fs : FileSystem)
    (out_name : String) (hnone : st.output_image = none) :
    save st fs out_name = .error .notProcessed := by
  simp [save, hnone]

/-- Concrete instance of `save_requires_process` in which the
destination file even exists: the not-processed error still wins. -/
theorem save_requires_process_witness :
    save ⟨"in.jpg", none⟩ [("out.jpg", 100), ("in.jpg", 5000)] "out.jpg" =
      .error .notProcessed :=
  save_requires_process ⟨"in.jpg", none⟩
    [("out.jpg", 100), ("in.jpg", 5000)] "out.jpg" rfl

end WebpicNormalizer
